import Mathlib

/-
Verification of the mini-tokio executor (src/mini-tokio/src/main.rs).

The embedding models instants (std::time::Instant) as natural numbers, a
Waker by the identity of the logical task it wakes (a waker built by
task::waker(self.clone()) wakes exactly that Task, and Waker::will_wake
compares that identity), and the shared Arc<Mutex<Waker>> slot of a Delay
by the `waker` field of the Delay state together with the rule that the
timer thread reads that field at firing time.  Thread spawning is recorded
explicitly in the result of poll so that claims about it can be stated.
-/

namespace MiniTokioModel

/-- Result of polling a future: Ready means Done, Pending means NotReady. -/
inductive Poll where
  | Ready : Poll
  | Pending : Poll
deriving DecidableEq, Repr

/-- A waker, identified by the task it wakes: task::waker(self.clone())
builds a waker whose invocation calls ArcWake::wake_by_ref on that Task,
and Waker::will_wake holds exactly for wakers of the same logical task. -/
structure Waker where
  task : Nat
deriving DecidableEq, Repr

/-- Waker::will_wake: true when both wakers wake the same logical task. -/
def Waker.will_wake (w w₂ : Waker) : Bool :=
  w.task == w₂.task

/-- The closure moved into the timer thread spawned by Delay::poll.  It
captures the deadline (let when = self.when) and the Arc of the shared
waker slot; it does not capture the time of the poll call, since the
thread body calls Instant::now() itself after starting. -/
structure TimerThread where
  when : Nat
deriving DecidableEq, Repr

/-- The timer thread body, up to the sleep: let now = Instant::now();
if now < when { thread::sleep(when - now) }.  The argument is the time at
which the thread starts running; the result is the duration slept, none
when the sleep is skipped because the deadline already passed. -/
def TimerThread.sleepFor (t : TimerThread) (threadStart : Nat) : Option Nat :=
  if threadStart < t.when then some (t.when - threadStart) else none

/-- The Delay future: a deadline and the optional shared waker slot
(waker: Option of Arc of Mutex of Waker).  The slot is none before the
first poll and holds the stored waker afterwards. -/
structure Delay where
  when : Nat
  waker : Option Waker
deriving DecidableEq, Repr

/-- What one call to Delay::poll produces: the Poll result, the updated
Delay state (in particular the contents of the shared waker slot), and the
timer threads spawned during the call. -/
structure DelayPollOut where
  res : Poll
  st : Delay
  spawned : List TimerThread
deriving DecidableEq, Repr

/-- Delay::poll.  If a waker is already stored, lock the slot and replace
its contents with the context waker unless will_wake holds; otherwise
(first call) store the context waker in a fresh slot and spawn the timer
thread.  In both cases the call then compares Instant::now() with the
deadline: Ready when now is at or past the deadline, Pending otherwise. -/
def Delay.poll (d : Delay) (cxWaker : Waker) (now : Nat) : DelayPollOut :=
  match d.waker with
  | some w =>
      let w₂ := if w.will_wake cxWaker then w else cxWaker
      { res := if d.when ≤ now then Poll.Ready else Poll.Pending
        st := { d with waker := some w₂ }
        spawned := [] }
  | none =>
      { res := if d.when ≤ now then Poll.Ready else Poll.Pending
        st := { d with waker := some cxWaker }
        spawned := [{ when := d.when }] }

/-- A sequence of Delay::poll calls, each given the context waker and the
current time of that call; returns the final Delay state and the total
number of timer threads spawned across the calls. -/
def Delay.pollMany (d : Delay) (calls : List (Waker × Nat)) : Delay × Nat :=
  match calls with
  | [] => (d, 0)
  | (cx, now) :: rest =>
      let out := d.poll cx now
      let tail := out.st.pollMany rest
      (tail.1, out.spawned.length + tail.2)

/-- A Task: the wrapped future behind a Mutex, plus (implicitly) a clone of
the channel Sender used by Task::schedule.  The `locked` flag models whether
the future Mutex is currently held; in this single-executor-thread model the
system has exactly one channel, so the sender clone is represented by the
schedule operation acting on the one system state. -/
structure Task where
  future : Delay
  locked : Bool
deriving DecidableEq, Repr

/-- A timer thread that is still running at system level: the deadline it
sleeps until, and the task whose Delay owns the shared waker slot the
thread will read when it fires. -/
structure RunningTimer where
  when : Nat
  owner : Nat
deriving DecidableEq, Repr

/-- The global state: the arena of allocated Tasks (a task id is an index
into it, standing for the Arc of the Task), the contents of the crossbeam
unbounded channel (the scheduled queue, FIFO of task ids), whether the
Receiver is still alive, the running timer threads, and the current time. -/
structure Sys where
  tasks : List Task
  queue : List Nat
  channelOpen : Bool
  threads : List RunningTimer
  now : Nat
deriving DecidableEq, Repr

/-- Observable events of a run, used to state temporal claims.  `polled`
records one call of Future::poll on the computation wrapped by the given
task, with its result; `lockFailed` records the branch where
try_lock().unwrap() in Task::poll fails and panics; `fired` records a
timer thread reaching its deadline and invoking the stored waker. -/
inductive Event where
  | polled (tid : Nat) (res : Poll)
  | lockFailed (tid : Nat)
  | fired (owner : Nat)
deriving DecidableEq, Repr

/-- Sender::send on the crossbeam unbounded channel: appends the task id
when the Receiver is alive and returns success; returns failure and leaves
the state unchanged when the Receiver has been dropped.  Never blocks. -/
def channelSend (s : Sys) (tid : Nat) : Sys × Bool :=
  if s.channelOpen then ({ s with queue := s.queue ++ [tid] }, true)
  else (s, false)

/-- Task::schedule: let _ = self.executor.send(self.clone()).  The send
result is discarded. -/
def Task.schedule (s : Sys) (tid : Nat) : Sys :=
  (channelSend s tid).1

/-- ArcWake::wake_by_ref for Task: it calls schedule on the owning Arc. -/
def wakeByRef (s : Sys) (tid : Nat) : Sys :=
  Task.schedule s tid

/-- Task::poll as invoked by the run loop on a dequeued task id, with the
rest of the queue already removed by recv.  It builds the waker for this
task, takes the future Mutex with try_lock().unwrap() — the lockFailed
event records the panic branch — and polls the wrapped future, discarding
the Poll result (let _ = future.as_mut().poll(&mut cx)).  Timer threads
spawned by the future are recorded with this task as owner. -/
def execTask (s : Sys) (tid : Nat) (rest : List Nat) : Sys × List Event :=
  match s.tasks.get? tid with
  | none => ({ s with queue := rest }, [])
  | some t =>
      if t.locked then
        ({ s with queue := rest }, [Event.lockFailed tid])
      else
        let out := t.future.poll { task := tid } s.now
        ({ s with
            queue := rest
            tasks := s.tasks.set tid { t with future := out.st }
            threads := s.threads ++
              out.spawned.map (fun th => { when := th.when, owner := tid }) },
         [Event.polled tid out.res])

/-- One iteration of MiniTokio::run: recv one task from the scheduled
queue and call Task::poll on it.  With an empty queue recv blocks (open
channel) or returns Err (closed); either way no task is polled. -/
def execStep (s : Sys) : Sys × List Event :=
  match s.queue with
  | [] => (s, [])
  | tid :: rest => execTask s tid rest

/-- The timer thread at index i finishes its sleep — only possible once
the current time has reached its deadline — then locks the shared waker
slot of its owner Delay, reads the waker stored there at that moment, and
calls wake_by_ref on it.  The thread terminates after firing once. -/
def fireStep (s : Sys) (i : Nat) : Sys × List Event :=
  match s.threads.get? i with
  | none => (s, [])
  | some th =>
      if th.when ≤ s.now then
        let s₂ := { s with threads := s.threads.eraseIdx i }
        match s.tasks.get? th.owner with
        | none => (s₂, [Event.fired th.owner])
        | some t =>
            match t.future.waker with
            | none => (s₂, [Event.fired th.owner])
            | some w => (wakeByRef s₂ w.task, [Event.fired th.owner])
      else (s, [])

/-- The schedulable actions of the concurrent system: one run-loop
iteration of the single executor thread, the firing of one timer thread,
or the passage of time. -/
inductive Act where
  | exec : Act
  | fire (i : Nat) : Act
  | tick (dt : Nat) : Act
deriving DecidableEq, Repr

/-- One step of the system under the stated scheduling model: a single
executor thread advances at most one Task at a time, timer threads run
concurrently and may fire whenever their deadline has passed. -/
def sysStep (s : Sys) : Act → Sys × List Event
  | Act.exec => execStep s
  | Act.fire i => fireStep s i
  | Act.tick dt => ({ s with now := s.now + dt }, [])

/-- Run a whole schedule of actions, collecting the emitted events. -/
def sysRun (s : Sys) : List Act → Sys × List Event
  | [] => (s, [])
  | a :: acts =>
      let st := sysStep s a
      let tail := sysRun st.1 acts
      (tail.1, st.2 ++ tail.2)

/-- Task::spawn (also reached through MiniTokio::spawn): wrap the given
future in exactly one new Task — an unlocked Mutex around the future plus
a clone of the sender — and send that Task on the channel, discarding the
send result (let _ = sender.send(task)). -/
def Sys.spawn (s : Sys) (f : Delay) : Sys :=
  let tid := s.tasks.length
  let s₂ := { s with tasks := s.tasks ++ [{ future := f, locked := false }] }
  (channelSend s₂ tid).1

/-- MiniTokio::run exits its while-let loop only when recv returns Err,
which for a crossbeam channel happens exactly when the channel is
disconnected (every Sender dropped) and empty. -/
def recvClosed (s : Sys) : Bool :=
  !s.channelOpen && s.queue.isEmpty

/-- Every task Mutex is currently free: what holds whenever the single
executor thread is between run-loop iterations. -/
def allUnlocked (s : Sys) : Prop :=
  ∀ t ∈ s.tasks, t.locked = false

/-- Recognizer for the try_lock panic branch in the event trace. -/
def Event.isLockFailure : Event → Bool
  | Event.lockFailed _ => true
  | _ => false

/-- The demo state of fn main, taken at a time by which the deadline of
the spawned Delay has already passed: one MiniTokio instance whose channel
Receiver is alive, with a Delay of deadline 0 spawned, observed at time 5. -/
def demoInit : Sys :=
  Sys.spawn { tasks := [], queue := [], channelOpen := true,
              threads := [], now := 5 } { when := 0, waker := none }

/-- The schedule that drives the demo to completion and lets its timer
thread fire: one run-loop iteration, the timer thread firing, and the
run-loop iteration that the firing causes. -/
def demoActs : List Act :=
  [Act.exec, Act.fire 0, Act.exec]

/-! Basic preservation lemmas about the channel operations. -/

theorem channelSend_channelOpen (s : Sys) (tid : Nat) :
    (channelSend s tid).1.channelOpen = s.channelOpen := by
  unfold channelSend; split <;> rfl

theorem channelSend_tasks (s : Sys) (tid : Nat) :
    (channelSend s tid).1.tasks = s.tasks := by
  unfold channelSend; split <;> rfl

theorem channelSend_threads (s : Sys) (tid : Nat) :
    (channelSend s tid).1.threads = s.threads := by
  unfold channelSend; split <;> rfl

theorem wakeByRef_channelOpen (s : Sys) (tid : Nat) :
    (wakeByRef s tid).channelOpen = s.channelOpen :=
  channelSend_channelOpen s tid

theorem wakeByRef_tasks (s : Sys) (tid : Nat) :
    (wakeByRef s tid).tasks = s.tasks :=
  channelSend_tasks s tid

theorem wakeByRef_queue (s : Sys) (tid : Nat) :
    (wakeByRef s tid).queue = s.queue ++ [tid] ∨ (wakeByRef s tid).queue = s.queue := by
  unfold wakeByRef Task.schedule channelSend
  split
  · exact Or.inl rfl
  · exact Or.inr rfl

theorem execTask_channelOpen (s : Sys) (tid : Nat) (rest : List Nat) :
    (execTask s tid rest).1.channelOpen = s.channelOpen := by
  unfold execTask
  split
  · rfl
  · split <;> rfl

theorem fireStep_channelOpen (s : Sys) (i : Nat) :
    (fireStep s i).1.channelOpen = s.channelOpen := by
  unfold fireStep
  split
  · rfl
  · split
    · split
      · rfl
      · split
        · rfl
        · rw [wakeByRef_channelOpen]
    · rfl

theorem fireStep_tasks (s : Sys) (i : Nat) :
    (fireStep s i).1.tasks = s.tasks := by
  unfold fireStep
  split
  · rfl
  · split
    · split
      · rfl
      · split
        · rfl
        · rw [wakeByRef_tasks]
    · rfl

theorem sysStep_channelOpen (s : Sys) (a : Act) :
    (sysStep s a).1.channelOpen = s.channelOpen := by
  cases a with
  | exec =>
      show (execStep s).1.channelOpen = s.channelOpen
      unfold execStep
      split
      · rfl
      · exact execTask_channelOpen ..
  | fire i => exact fireStep_channelOpen s i
  | tick dt => rfl

theorem sysRun_channelOpen (acts : List Act) :
    ∀ s : Sys, (sysRun s acts).1.channelOpen = s.channelOpen := by
  induction acts with
  | nil => intro s; rfl
  | cons a acts ih =>
      intro s
      show (sysRun (sysStep s a).1 acts).1.channelOpen = s.channelOpen
      rw [ih, sysStep_channelOpen]

/-! Lemmas about Delay::poll. -/

theorem poll_spawned_of_armed (d : Delay) (w cx : Waker) (now : Nat)
    (h : d.waker = some w) : (d.poll cx now).spawned = [] := by
  unfold Delay.poll
  rw [h]

theorem poll_waker_isSome (d : Delay) (cx : Waker) (now : Nat) :
    (d.poll cx now).st.waker.isSome = true := by
  rcases hd : d.waker with _ | w <;> simp [Delay.poll, hd]

theorem pollMany_armed (calls : List (Waker × Nat)) :
    ∀ d : Delay, d.waker.isSome = true → (d.pollMany calls).2 = 0 := by
  induction calls with
  | nil => intro d _; rfl
  | cons c rest ih =>
      intro d hd
      obtain ⟨cx, now⟩ := c
      obtain ⟨w, hw⟩ := Option.isSome_iff_exists.mp hd
      simp only [Delay.pollMany]
      rw [poll_spawned_of_armed d w cx now hw, ih _ (poll_waker_isSome d cx now)]
      rfl

/-! The single-executor-thread lock invariant: between run-loop iterations
every task Mutex is free, each step keeps it that way, and therefore the
try_lock panic branch in Task::poll never runs. -/

theorem execTask_allUnlocked (s : Sys) (tid : Nat) (rest : List Nat)
    (h : allUnlocked s) : allUnlocked (execTask s tid rest).1 := by
  unfold execTask
  split
  · exact h
  · next t ht =>
      split
      · exact h
      · intro x hx
        rcases List.mem_or_eq_of_mem_set hx with hx | rfl
        · exact h x hx
        · exact h t (List.get?_mem ht)

theorem fireStep_allUnlocked (s : Sys) (i : Nat) (h : allUnlocked s) :
    allUnlocked (fireStep s i).1 := by
  intro x hx
  rw [fireStep_tasks] at hx
  exact h x hx

theorem sysStep_allUnlocked (s : Sys) (a : Act) (h : allUnlocked s) :
    allUnlocked (sysStep s a).1 := by
  cases a with
  | exec =>
      show allUnlocked (execStep s).1
      unfold execStep
      split
      · exact h
      · exact execTask_allUnlocked _ _ _ h
  | fire i => exact fireStep_allUnlocked s i h
  | tick dt => exact h

theorem execTask_no_lockfail (s : Sys) (tid : Nat) (rest : List Nat)
    (h : allUnlocked s) :
    (execTask s tid rest).2.countP Event.isLockFailure = 0 := by
  unfold execTask
  split
  · rfl
  · next t ht =>
      split
      · next hl =>
          exact absurd (h t (List.get?_mem ht)) (by simp [hl])
      · rfl

theorem fireStep_no_lockfail (s : Sys) (i : Nat) :
    (fireStep s i).2.countP Event.isLockFailure = 0 := by
  unfold fireStep
  split
  · rfl
  · split
    · split
      · rfl
      · split <;> rfl
    · rfl

theorem sysStep_no_lockfail (s : Sys) (a : Act) (h : allUnlocked s) :
    (sysStep s a).2.countP Event.isLockFailure = 0 := by
  cases a with
  | exec =>
      show (execStep s).2.countP Event.isLockFailure = 0
      unfold execStep
      split
      · rfl
      · exact execTask_no_lockfail _ _ _ h
  | fire i => exact fireStep_no_lockfail s i
  | tick dt => rfl

theorem sysRun_no_lockfail (acts : List Act) :
    ∀ s : Sys, allUnlocked s →
      (sysRun s acts).2.countP Event.isLockFailure = 0 := by
  induction acts with
  | nil => intro s _; rfl
  | cons a acts ih =>
      intro s h
      show ((sysStep s a).2 ++ (sysRun (sysStep s a).1 acts).2).countP
        Event.isLockFailure = 0
      rw [List.countP_append, sysStep_no_lockfail s a h,
        ih _ (sysStep_allUnlocked s a h)]

/-- Each run-loop iteration that dequeues a task leaves the queue at
exactly the remaining tasks: Task::poll enqueues nothing itself. -/
theorem execTask_queue (s : Sys) (tid : Nat) (rest : List Nat) :
    (execTask s tid rest).1.queue = rest := by
  unfold execTask
  split
  · rfl
  · split <;> rfl

/-- A concrete system used to exercise the firing of a timer thread: one
task whose Delay slot stores the waker of task 7, one expired timer
thread owned by it, and an open channel. -/
def fireDemo : Sys :=
  { tasks := [{ future := { when := 0, waker := some { task := 7 } },
                locked := false }],
    queue := [], channelOpen := true,
    threads := [{ when := 0, owner := 0 }], now := 5 }

/-- C1, counterexample: a Delay with deadline 0 polled for the first time
at time 5 (deadline already in the past) does return Ready on that first
poll, but the call nevertheless spawns a background timing thread, because
Delay::poll spawns the thread unconditionally whenever no waker is stored
yet and only afterwards compares the clock with the deadline. -/
theorem c1_claim_fails :
    (Delay.poll { when := 0, waker := none } { task := 0 } 5).res = Poll.Ready ∧
    (Delay.poll { when := 0, waker := none } { task := 0 } 5).spawned ≠ [] := by
  decide

/-- C1, amended: the first advance of a Delay whose deadline is already in
the past returns Done immediately, but that same call still spawns exactly
one background timing thread (carrying the deadline). -/
theorem c1_first_poll_past_deadline (wn now : Nat) (cx : Waker) (h : wn ≤ now) :
    (Delay.poll { when := wn, waker := none } cx now).res = Poll.Ready ∧
    (Delay.poll { when := wn, waker := none } cx now).spawned = [{ when := wn }] := by
  refine ⟨?_, rfl⟩
  simp [Delay.poll, h]

/-- C1, witness: the amended statement evaluated at deadline 0, time 5. -/
theorem c1_first_poll_past_deadline_witness :
    (Delay.poll { when := 0, waker := none } { task := 0 } 5).res = Poll.Ready ∧
    (Delay.poll { when := 0, waker := none } { task := 0 } 5).spawned
      = [{ when := 0 }] :=
  c1_first_poll_past_deadline 0 5 { task := 0 } (by decide)

/-- C2, counterexample: in the demo run, the wrapped computation of task
0 returns Ready at the very first poll (deadline already past), yet after
the timer thread — spawned by that same poll — fires and re-enqueues the
task, the run loop polls the very same computation a second time: a
post-completion advance caused by a later wake of a handle derived from
the task. -/
theorem c2_claim_fails :
    (sysRun demoInit demoActs).2.get? 0 = some (Event.polled 0 Poll.Ready) ∧
    (sysRun demoInit demoActs).2.get? 1 = some (Event.fired 0) ∧
    (sysRun demoInit demoActs).2.get? 2 = some (Event.polled 0 Poll.Ready) := by
  decide

/-- C2, amended: the Executor itself never re-enqueues a task it has
polled — each run-loop iteration removes the received task from the queue
and Task::poll adds nothing to it, whatever the poll result — so a task
that returned Done is advanced again only if some surviving wake handle
(such as the timer thread of a Delay that completed on its first poll)
re-enqueues it later. -/
theorem c2_executor_discards_polled_task (s : Sys) (tid : Nat)
    (rest : List Nat) (h : s.queue = tid :: rest) :
    (execStep s).1.queue = rest := by
  unfold execStep
  rw [h]
  exact execTask_queue ..

/-- C2, witness: the amended statement evaluated on the demo state, whose
queue holds exactly task 0. -/
theorem c2_executor_discards_polled_task_witness :
    (execStep demoInit).1.queue = [] :=
  c2_executor_discards_polled_task demoInit 0 [] (by decide)

/-- C3, counterexample: in the demo run every submitted computation has
resolved (the trace shows its poll returning Ready), the queue is empty
and no timer thread is pending, yet recv would still block rather than
return Err: the channel is not disconnected — the MiniTokio instance
itself keeps a Sender alive — so the run loop does not exit. -/
theorem c3_claim_fails :
    (sysRun demoInit demoActs).2.get? 0 = some (Event.polled 0 Poll.Ready) ∧
    (sysRun demoInit demoActs).1.queue = [] ∧
    (sysRun demoInit demoActs).1.threads = [] ∧
    (sysRun demoInit demoActs).1.channelOpen = true ∧
    recvClosed (sysRun demoInit demoActs).1 = false := by
  decide

/-- C3, amended: MiniTokio::run exits only when the scheduled channel is
disconnected and empty; since the MiniTokio instance retains its Sender,
the channel stays connected across every step of the system, so the exit
condition of the run loop never becomes true — run() blocks indefinitely
even after all submitted computations have resolved. -/
theorem c3_run_never_exits (s : Sys) (acts : List Act)
    (h : s.channelOpen = true) :
    (sysRun s acts).1.channelOpen = true ∧
    recvClosed (sysRun s acts).1 = false := by
  have hopen : (sysRun s acts).1.channelOpen = true := by
    rw [sysRun_channelOpen]; exact h
  refine ⟨hopen, ?_⟩
  simp [recvClosed, hopen]

/-- C3, witness: the amended statement evaluated on the demo run. -/
theorem c3_run_never_exits_witness :
    (sysRun demoInit demoActs).1.channelOpen = true ∧
    recvClosed (sysRun demoInit demoActs).1 = false :=
  c3_run_never_exits demoInit demoActs (by decide)

/-- C4, confirmed: starting from any state in which every task Mutex is
free — which is how the single executor thread always finds the system
between run-loop iterations — no schedule of executor steps, timer
firings and clock ticks ever reaches the branch of Task::poll where
try_lock().unwrap() fails; and a wake arriving concurrently only appends
the owning task to the ready queue (or does nothing when the channel is
closed), never touching any task or its Mutex. -/
theorem c4_lock_safety (s : Sys) (acts : List Act) (h : allUnlocked s) :
    (sysRun s acts).2.countP Event.isLockFailure = 0 ∧
    ∀ tid : Nat, (wakeByRef s tid).tasks = s.tasks ∧
      ((wakeByRef s tid).queue = s.queue ++ [tid] ∨
        (wakeByRef s tid).queue = s.queue) :=
  ⟨sysRun_no_lockfail acts s h,
   fun tid => ⟨wakeByRef_tasks s tid, wakeByRef_queue s tid⟩⟩

theorem allUnlocked_demoInit : allUnlocked demoInit := by
  intro t ht
  have hne : t = { future := { when := 0, waker := none }, locked := false } := by
    simpa [demoInit, Sys.spawn, channelSend] using ht
  rw [hne]

/-- C4, witness: the lock-safety statement evaluated on the demo run. -/
theorem c4_lock_safety_witness :
    (sysRun demoInit demoActs).2.countP Event.isLockFailure = 0 ∧
    (wakeByRef demoInit 0).tasks = demoInit.tasks :=
  ⟨(c4_lock_safety demoInit demoActs allUnlocked_demoInit).1,
   ((c4_lock_safety demoInit demoActs allUnlocked_demoInit).2 0).1⟩

/-- C5, confirmed: an Armed Delay (waker slot filled) compares the stored
waker with the context waker on every poll and replaces the slot contents
exactly when will_wake fails, keeping them otherwise; and when a timer
thread fires it wakes the waker it reads from the owner Delay slot at
firing time — the task enqueued is the one of the currently stored waker,
not of any copy captured when the thread was spawned. -/
theorem c5_handle_replace :
    (∀ (d : Delay) (w cx : Waker) (now : Nat), d.waker = some w →
        w.will_wake cx = false → (d.poll cx now).st.waker = some cx) ∧
    (∀ (d : Delay) (w cx : Waker) (now : Nat), d.waker = some w →
        w.will_wake cx = true → (d.poll cx now).st.waker = some w) ∧
    (∀ (s : Sys) (i : Nat) (th : RunningTimer) (t : Task) (w : Waker),
        s.threads.get? i = some th → th.when ≤ s.now →
        s.tasks.get? th.owner = some t → t.future.waker = some w →
        s.channelOpen = true →
        (fireStep s i).1.queue = s.queue ++ [w.task]) := by
  refine ⟨?_, ?_, ?_⟩
  · intro d w cx now hw hww
    unfold Delay.poll
    rw [hw]
    simp [hww]
  · intro d w cx now hw hww
    unfold Delay.poll
    rw [hw]
    simp [hww]
  · intro s i th t w hth hwhen ht hw hop
    unfold fireStep wakeByRef Task.schedule channelSend
    rw [hth]
    rw [List.get?_eq_getElem?] at ht
    simp [hwhen, ht, hw, hop]

/-- C5, witness: a stored waker for task 0 is replaced by a context waker
for task 1 and kept under a matching context waker; the expired timer
thread of fireDemo enqueues task 7, the task of the currently stored
waker. -/
theorem c5_handle_replace_witness :
    (Delay.poll { when := 9, waker := some { task := 0 } } { task := 1 } 3).st.waker
      = some { task := 1 } ∧
    (Delay.poll { when := 9, waker := some { task := 0 } } { task := 0 } 3).st.waker
      = some { task := 0 } ∧
    (fireStep fireDemo 0).1.queue = fireDemo.queue ++ [7] :=
  ⟨c5_handle_replace.1 _ { task := 0 } _ _ rfl (by decide),
   c5_handle_replace.2.1 _ { task := 0 } _ _ rfl (by decide),
   c5_handle_replace.2.2 fireDemo 0 { when := 0, owner := 0 }
     { future := { when := 0, waker := some { task := 7 } }, locked := false }
     { task := 7 } rfl (by decide) rfl rfl rfl⟩

/-- C6, confirmed: a poll of a Delay whose waker slot is already filled
spawns no thread, and any sequence of polls of a freshly created Delay
(empty slot) spawns at most one timer thread in total. -/
theorem c6_at_most_one_thread :
    (∀ (d : Delay) (w cx : Waker) (now : Nat), d.waker = some w →
        (d.poll cx now).spawned = []) ∧
    (∀ (wn : Nat) (calls : List (Waker × Nat)),
        (Delay.pollMany { when := wn, waker := none } calls).2 ≤ 1) := by
  refine ⟨poll_spawned_of_armed, ?_⟩
  intro wn calls
  cases calls with
  | nil => exact Nat.zero_le 1
  | cons c rest =>
      obtain ⟨cx, now⟩ := c
      simp only [Delay.pollMany]
      rw [pollMany_armed rest _ (poll_waker_isSome { when := wn, waker := none } cx now)]
      exact Nat.le_refl 1

/-- C6, witness: an Armed Delay polled again spawns nothing, and three
polls of a fresh Delay spawn one thread in total. -/
theorem c6_at_most_one_thread_witness :
    (Delay.poll { when := 4, waker := some { task := 2 } } { task := 2 } 1).spawned
      = [] ∧
    (Delay.pollMany { when := 4, waker := none }
      [({ task := 0 }, 1), ({ task := 1 }, 2), ({ task := 1 }, 9)]).2 ≤ 1 :=
  ⟨c6_at_most_one_thread.1 _ { task := 2 } _ _ rfl,
   c6_at_most_one_thread.2 4 [({ task := 0 }, 1), ({ task := 1 }, 2), ({ task := 1 }, 9)]⟩

/-- C7, confirmed: with the Receiver alive, wake_by_ref on the handle of a
task sends exactly that task reference on the scheduled channel — the
resulting state is the old one with the owning task id appended to the
queue and every other component (task arena, threads, clock, channel)
unchanged, and no new task is created. -/
theorem c7_wake_enqueues_owner (s : Sys) (tid : Nat) (h : s.channelOpen = true) :
    wakeByRef s tid = { s with queue := s.queue ++ [tid] } := by
  unfold wakeByRef Task.schedule channelSend
  simp [h]

/-- C7, witness: waking task 0 in the demo state appends exactly task 0. -/
theorem c7_wake_enqueues_owner_witness :
    wakeByRef demoInit 0 = { demoInit with queue := demoInit.queue ++ [0] } :=
  c7_wake_enqueues_owner demoInit 0 (by decide)

/-- C8, confirmed: with the Receiver alive, spawn wraps the given future
in exactly one new Task (unlocked Mutex around the future, sender clone)
appended to the task arena, and pushes exactly that task onto the end of
the ready queue, leaving all previously enqueued tasks in place and every
other component of the state unchanged; the send on the unbounded channel
returns immediately. -/
theorem c8_spawn_one_task (s : Sys) (f : Delay) (h : s.channelOpen = true) :
    Sys.spawn s f = { s with
      tasks := s.tasks ++ [{ future := f, locked := false }],
      queue := s.queue ++ [s.tasks.length] } := by
  unfold Sys.spawn channelSend
  simp [h]

/-- C8, witness: spawning a Delay into a state with one queued task adds
one task and appends its id after the existing queue entry. -/
theorem c8_spawn_one_task_witness :
    Sys.spawn { tasks := [{ future := { when := 3, waker := none }, locked := false }],
                queue := [0], channelOpen := true, threads := [], now := 0 }
        { when := 8, waker := none }
      = { tasks := [{ future := { when := 3, waker := none }, locked := false },
                    { future := { when := 8, waker := none }, locked := false }],
          queue := [0, 1], channelOpen := true, threads := [], now := 0 } :=
  c8_spawn_one_task
    { tasks := [{ future := { when := 3, waker := none }, locked := false }],
      queue := [0], channelOpen := true, threads := [], now := 0 }
    { when := 8, waker := none } (by decide)

/-- C9, confirmed: the timer thread sleeps for exactly the deadline minus
the time observed inside the thread when it starts, skips the sleep
entirely when that time is already at or past the deadline, and the
closure spawned by the first poll does not depend on the time of the poll
call — polls at different times spawn identical thread closures. -/
theorem c9_sleep_recomputed :
    (∀ (t : TimerThread) (threadStart : Nat), threadStart < t.when →
        t.sleepFor threadStart = some (t.when - threadStart)) ∧
    (∀ (t : TimerThread) (threadStart : Nat), t.when ≤ threadStart →
        t.sleepFor threadStart = none) ∧
    (∀ (d : Delay) (cx : Waker) (t₁ t₂ : Nat), d.waker = none →
        (d.poll cx t₁).spawned = (d.poll cx t₂).spawned) := by
  refine ⟨?_, ?_, ?_⟩
  · intro t threadStart h
    simp [TimerThread.sleepFor, h]
  · intro t threadStart h
    simp [TimerThread.sleepFor, Nat.not_lt_of_le h]
  · intro d cx t₁ t₂ h
    unfold Delay.poll
    rw [h]

/-- C9, witness: a thread with deadline 10 starting at time 4 sleeps 6,
starting at time 12 sleeps not at all; polling a fresh Delay at times 4
and 12 spawns the same thread. -/
theorem c9_sleep_recomputed_witness :
    TimerThread.sleepFor { when := 10 } 4 = some 6 ∧
    TimerThread.sleepFor { when := 10 } 12 = none ∧
    (Delay.poll { when := 10, waker := none } { task := 0 } 4).spawned
      = (Delay.poll { when := 10, waker := none } { task := 0 } 12).spawned :=
  ⟨c9_sleep_recomputed.1 { when := 10 } 4 (by decide),
   c9_sleep_recomputed.2.1 { when := 10 } 12 (by decide),
   c9_sleep_recomputed.2.2 _ { task := 0 } 4 12 rfl⟩

/-- C10, confirmed: once the Receiver has been dropped, waking a task is a
complete no-op on the state, the send error is reported by the channel but
discarded by Task::schedule and Task::spawn (both total, never a panic),
and a spawn after disconnection leaves the ready queue unchanged — the
spawned task is simply never enqueued, hence never advanced. -/
theorem c10_closed_channel_noop (s : Sys) (tid : Nat) (f : Delay)
    (h : s.channelOpen = false) :
    wakeByRef s tid = s ∧
    (channelSend s tid).2 = false ∧
    (Sys.spawn s f).queue = s.queue := by
  refine ⟨?_, ?_, ?_⟩
  · unfold wakeByRef Task.schedule channelSend
    simp [h]
  · unfold channelSend
    simp [h]
  · unfold Sys.spawn channelSend
    simp [h]

/-- C10, witness: on a disconnected channel, waking task 0 changes nothing
and a spawn leaves the queue empty. -/
theorem c10_closed_channel_noop_witness :
    wakeByRef { tasks := [], queue := [], channelOpen := false,
                threads := [], now := 0 } 0
      = { tasks := [], queue := [], channelOpen := false,
          threads := [], now := 0 } ∧
    (Sys.spawn { tasks := [], queue := [], channelOpen := false,
                 threads := [], now := 0 } { when := 1, waker := none }).queue = [] :=
  ⟨(c10_closed_channel_noop
      { tasks := [], queue := [], channelOpen := false, threads := [], now := 0 }
      0 { when := 1, waker := none } (by decide)).1,
   (c10_closed_channel_noop
      { tasks := [], queue := [], channelOpen := false, threads := [], now := 0 }
      0 { when := 1, waker := none } (by decide)).2.2⟩

end MiniTokioModel
